import Mathlib

/-!
Verification of the session/credential lifecycle engine of the
`base-express` repository.

The development shallowly embeds the relevant TypeScript sources:

* `src/data/user-sessions.ts` — the session-ledger SQL operations
  (`getActiveSession`, `getSessionByRefreshJti`, `rotateRefreshToken`,
  `revokeSession`, `revokeAllUserSessions`, `cleanupExpiredSessions`);
* `src/controller/auth.ts` — the `refresh` and `logout` controllers;
* `src/services/security.ts` — the lockout guard and the table-name
  allow-list;
* `src/services/db.ts` — the generic query helpers and the legacy
  `AuthCache` verification path;
* `src/services/jwt.ts` — token verification with the kind discriminator.

The session table is a `List` of rows, SQL `UPDATE ... WHERE` statements
become `List.map` with the row filter of their `WHERE` clause, and Redis
becomes an association list of keys with optional expiry.  `NOW()` is an
explicit `now : Nat` argument.  SHA-256 (`hashJti`) is kept abstract as a
function parameter `hash : String → String`: nothing below depends on the
digest itself, only on where the code applies it.
-/

namespace BaseExpress

/-- `status` column of `user_sessions` (schema: active | revoked | expired). -/
inductive SessionStatus
  | active
  | revoked
  | expired
  deriving DecidableEq, Repr

/-- `revoke_reason` column of `user_sessions`. -/
inductive RevokeReason
  | logout
  | token_reuse
  | admin_action
  | password_change
  deriving DecidableEq, Repr

/-- One row of the `user_sessions` table (`src/types/db/user_sessions.ts`).
`refresh_jti` stores the SHA-256 hash of the current refresh identifier. -/
structure UserSessionDB where
  sid : String
  user_id : String
  refresh_jti : String
  status : SessionStatus
  expires_at : Nat
  rotated_at : Option Nat := none
  last_seen_at : Nat := 0
  revoked_at : Option Nat := none
  revoke_reason : Option RevokeReason := none
  deriving DecidableEq, Repr

/-- The session table. -/
abbrev SessionTable := List UserSessionDB

/-! ## Redis model

`ioredis` as used by the repository: `get`, `set key val 'EX' ttl`,
`del`, `incr`, `expire`.  An entry is a key, a value and an optional
absolute expiry time. -/

/-- One Redis key with its value and optional absolute expiry. -/
structure RedisEntry where
  key : String
  val : String
  expiresAt : Option Nat := none
  deriving DecidableEq, Repr

abbrev RedisState := List RedisEntry

/-- An entry is live at `now` if it has no expiry or its expiry is in the future. -/
def RedisEntry.live (e : RedisEntry) (now : Nat) : Bool :=
  match e.expiresAt with
  | some t => decide (now < t)
  | none => true

/-- `redis.get key`: the value of the first live entry for the key. -/
def redisGet (r : RedisState) (now : Nat) (k : String) : Option String :=
  match r.find? (fun e => decide (e.key = k)) with
  | some e => if e.live now then some e.val else none
  | none => none

/-- `redis.set key val 'EX' ttl` (ttl in seconds, `none` for no expiry). -/
def redisSet (r : RedisState) (now : Nat) (k v : String) (ttl : Option Nat) : RedisState :=
  { key := k, val := v, expiresAt := ttl.map (fun s => now + s) } ::
    r.filter (fun e => decide (e.key ≠ k))

/-- `redis.del key`. -/
def redisDel (r : RedisState) (k : String) : RedisState :=
  r.filter (fun e => decide (e.key ≠ k))

/-- `redis.incr key`: missing or expired keys restart at 1 (no expiry);
a live key is incremented and keeps its expiry. -/
def redisIncr (r : RedisState) (now : Nat) (k : String) : RedisState × Nat :=
  match r.find? (fun e => decide (e.key = k)) with
  | some e =>
      if e.live now then
        let n := (e.val.toNat?.getD 0) + 1
        ({ key := k, val := toString n, expiresAt := e.expiresAt } ::
           r.filter (fun x => decide (x.key ≠ k)), n)
      else
        ({ key := k, val := "1", expiresAt := none } ::
           r.filter (fun x => decide (x.key ≠ k)), 1)
  | none => ({ key := k, val := "1", expiresAt := none } :: r, 1)

/-- `redis.expire key secs`. -/
def redisExpire (r : RedisState) (now : Nat) (k : String) (secs : Nat) : RedisState :=
  r.map (fun e => if e.key = k then { e with expiresAt := some (now + secs) } else e)

/-- `redis.ttl key` in seconds (0 when absent, matching no live entry). -/
def redisTtl (r : RedisState) (now : Nat) (k : String) : Nat :=
  match r.find? (fun e => decide (e.key = k)) with
  | some e => match e.expiresAt with
    | some t => t - now
    | none => 0
  | none => 0

/-! ## Session ledger operations (`src/data/user-sessions.ts`) -/

/-- `getActiveSession`:
`SELECT * FROM user_sessions WHERE sid = $1 AND status = 'active' AND expires_at > NOW()`,
first row or null. -/
def getActiveSession (tbl : SessionTable) (now : Nat) (sid : String) :
    Option UserSessionDB :=
  (tbl.filter (fun s =>
    decide (s.sid = sid ∧ s.status = SessionStatus.active ∧ now < s.expires_at))).head?

/-- `getSessionByRefreshJti`: hashes the presented jti and runs
`SELECT * FROM user_sessions WHERE refresh_jti = $1 AND status = 'active'`. -/
def getSessionByRefreshJti (hash : String → String) (tbl : SessionTable)
    (jti : String) : Option UserSessionDB :=
  let jtiHash := hash jti
  (tbl.filter (fun s =>
    decide (s.refresh_jti = jtiHash ∧ s.status = SessionStatus.active))).head?

/-- Row update performed by `rotateRefreshToken`. -/
def rotateUpd (jtiHash : String) (now : Nat) (s : UserSessionDB) : UserSessionDB :=
  { s with refresh_jti := jtiHash, rotated_at := some now, last_seen_at := now }

/-- `rotateRefreshToken`:
`UPDATE user_sessions SET refresh_jti = $2, rotated_at = NOW(), last_seen_at = NOW()
 WHERE sid = $1 AND status = 'active' RETURNING *`.
The `WHERE` clause mentions only the sid and the status — it does not
compare the stored `refresh_jti` with anything.  Returns the updated
table and the first returned row (null when no row matched). -/
def rotateRefreshToken (hash : String → String) (tbl : SessionTable) (now : Nat)
    (sid newJti : String) : SessionTable × Option UserSessionDB :=
  let jtiHash := hash newJti
  let hit := fun s => decide (s.sid = sid ∧ s.status = SessionStatus.active)
  ( tbl.map (fun s => if hit s then rotateUpd jtiHash now s else s),
    ((tbl.filter hit).map (rotateUpd jtiHash now)).head? )

/-- Row update performed by `revokeSession`. -/
def revokeUpd (now : Nat) (reason : RevokeReason) (s : UserSessionDB) : UserSessionDB :=
  { s with status := SessionStatus.revoked, revoked_at := some now,
           revoke_reason := some reason }

/-- `revokeSession`:
`UPDATE user_sessions SET status = 'revoked', revoked_at = NOW(), revoke_reason = $2
 WHERE sid = $1`.
Note that the `WHERE` clause does not restrict the current status. -/
def revokeSession (tbl : SessionTable) (now : Nat) (sid : String)
    (reason : RevokeReason) : SessionTable :=
  tbl.map (fun s => if s.sid = sid then revokeUpd now reason s else s)

/-- `revokeAllUserSessions`: revokes every **active** session of the user
(optionally sparing one sid) and returns the updated table with the count. -/
def revokeAllUserSessions (tbl : SessionTable) (now : Nat) (userId : String)
    (reason : RevokeReason) (exceptSid : Option String) : SessionTable × Nat :=
  let hit := fun s => decide (s.user_id = userId ∧ s.status = SessionStatus.active) &&
    (match exceptSid with | some e => decide (s.sid ≠ e) | none => true)
  ( tbl.map (fun s => if hit s then revokeUpd now reason s else s),
    (tbl.filter hit).length )

/-- `cleanupExpiredSessions`:
`UPDATE user_sessions SET status = 'expired' WHERE status = 'active' AND expires_at < NOW()`,
returning the updated table and the count. -/
def cleanupExpiredSessions (tbl : SessionTable) (now : Nat) : SessionTable × Nat :=
  let hit := fun s => decide (s.status = SessionStatus.active ∧ s.expires_at < now)
  ( tbl.map (fun s => if hit s then { s with status := SessionStatus.expired } else s),
    (tbl.filter hit).length )

/-! ## Refresh and logout controllers (`src/controller/auth.ts`) -/

/-- Payload of a verified refresh token (`RefreshTokenPayload`):
`typ` is fixed to `refresh` by `verifyRefreshToken`, so only the claims
the controller destructures are kept. -/
structure RefreshTokenPayload where
  sid : String
  sub : String
  jti : String
  deriving DecidableEq, Repr

/-- Error codes thrown by the controllers (`Unauthorized(..., code)`). -/
inductive AuthCode
  | MISSING_REFRESH_TOKEN
  | INVALID_REFRESH_TOKEN
  | TOKEN_REUSE_DETECTED
  | SESSION_NOT_FOUND
  | SESSION_USER_MISMATCH
  | USER_NOT_FOUND
  deriving DecidableEq, Repr

/-- Result of the refresh controller: the new refresh jti on success
(the fresh access/refresh token pair is generated from it), or the
`Unauthorized` code thrown. -/
inductive RefreshResult
  | ok (newJti : String)
  | err (code : AuthCode)
  deriving DecidableEq, Repr

/-- The state the refresh/logout controllers read and write: the
`user_sessions` table, the set of user ids `getUserById` can find,
the Redis cache and its reachability, and the clock. -/
structure AuthState where
  sessions : SessionTable
  users : List String
  redis : RedisState
  redisAvailable : Bool
  now : Nat
  deriving DecidableEq, Repr

/-- The continuation of the `refresh` controller (auth.ts:174-247) after its
one-time-use lookup `getSessionByRefreshJti` has resolved to `lookup`.  The
controller suspends at every `await`; splitting it at this one makes the
interleaving of two concurrent refresh requests expressible: each request
performs its lookup against the table as it was, and the continuation
re-reads the table only where the source re-queries it (`getActiveSession`
and the `UPDATE` statements).

* on a lookup miss, the session is re-read by sid: if it is active with a
  current identifier different from the presented jti, this is a reuse
  event — every active session of the subject is revoked with
  `token_reuse`, the `session:{sid}` and `user:{sub}` cache keys are
  deleted when Redis is reachable, and `TOKEN_REUSE_DETECTED` is thrown;
  otherwise `SESSION_NOT_FOUND` is thrown;
* on a hit, the session owner and the user are checked, then the stored
  identifier is rotated via `rotateRefreshToken` (whose `UPDATE` matches on
  sid and status alone) and the `session:{sid}` cache entry refreshed. -/
def refreshResume (hash : String → String) (st : AuthState)
    (p : RefreshTokenPayload) (newJti : String)
    (lookup : Option UserSessionDB) : AuthState × RefreshResult :=
  match lookup with
  | none =>
    match getActiveSession st.sessions st.now p.sid with
    | some existingSession =>
      if existingSession.refresh_jti ≠ p.jti then
        let sessions1 := (revokeAllUserSessions st.sessions st.now p.sub
          RevokeReason.token_reuse none).1
        let redis1 := if st.redisAvailable then
            redisDel (redisDel st.redis ("session:" ++ p.sid)) ("user:" ++ p.sub)
          else st.redis
        ({ st with sessions := sessions1, redis := redis1 },
          RefreshResult.err AuthCode.TOKEN_REUSE_DETECTED)
      else
        (st, RefreshResult.err AuthCode.SESSION_NOT_FOUND)
    | none => (st, RefreshResult.err AuthCode.SESSION_NOT_FOUND)
  | some session =>
    if session.user_id ≠ p.sub then
      (st, RefreshResult.err AuthCode.SESSION_USER_MISMATCH)
    else if ¬ st.users.contains p.sub then
      (st, RefreshResult.err AuthCode.USER_NOT_FOUND)
    else
      let sessions1 := (rotateRefreshToken hash st.sessions st.now p.sid newJti).1
      let redis1 := if st.redisAvailable then
          redisSet st.redis st.now ("session:" ++ p.sid) "active" (some 600)
        else st.redis
      ({ st with sessions := sessions1, redis := redis1 },
        RefreshResult.ok newJti)

/-- `refresh` (auth.ts:150-248), from the point where the refresh token has
been verified and destructured into `{ sid, sub, jti }` (`newJti` stands for
the fresh uuid drawn by `generateRefreshToken`): the one-time-use lookup
followed by its continuation, executed without interleaving. -/
def refreshCore (hash : String → String) (st : AuthState)
    (p : RefreshTokenPayload) (newJti : String) : AuthState × RefreshResult :=
  refreshResume hash st p newJti (getSessionByRefreshJti hash st.sessions p.jti)

/-- Two concurrent `refresh` requests presenting the *same* refresh token,
interleaved as lookup₁; lookup₂; continuation₁; continuation₂ — a schedule
the data layer permits, since nothing serializes the two one-time-use
lookups against the two rotation `UPDATE`s.  Returns the final state and
both results. -/
def twoRefreshInterleaving (hash : String → String) (st : AuthState)
    (p : RefreshTokenPayload) (j1 j2 : String) :
    AuthState × RefreshResult × RefreshResult :=
  let l1 := getSessionByRefreshJti hash st.sessions p.jti
  let l2 := getSessionByRefreshJti hash st.sessions p.jti
  let r1 := refreshResume hash st p j1 l1
  let r2 := refreshResume hash r1.1 p j2 l2
  (r2.1, r1.2, r2.2)

/-- `logout` (auth.ts:250-276): a request with no authenticated user or
session id is a no-op success; otherwise the session is revoked with
reason `logout` and its cache entry deleted when Redis is reachable.
Returns the new state and `true` (the controller always returns
`{ success: true }`; it never errors once reached). -/
def logout (st : AuthState) (user : Option String) (sessionId : Option String) :
    AuthState × Bool :=
  match user, sessionId with
  | some _, some sid =>
    let sessions1 := revokeSession st.sessions st.now sid RevokeReason.logout
    let redis1 := if st.redisAvailable then redisDel st.redis ("session:" ++ sid)
      else st.redis
    ({ st with sessions := sessions1, redis := redis1 }, true)
  | _, _ => (st, true)

/-! ## Lockout guard (`src/services/security.ts`) -/

/-- One scope of `LOCKOUT_CONFIG` (threshold, sliding window, lock
duration, key prefix).  Durations are in milliseconds as in the source;
they are divided by 1000 where the source passes them to Redis. -/
structure LockoutConfig where
  maxAttempts : Nat
  windowMs : Nat
  lockoutMs : Nat
  keyPrefix : String
  deriving DecidableEq, Repr

/-- `LOCKOUT_CONFIG.email`: stricter, protects specific accounts. -/
def LOCKOUT_CONFIG_email : LockoutConfig :=
  { maxAttempts := 5, windowMs := 15 * 60 * 1000, lockoutMs := 30 * 60 * 1000,
    keyPrefix := "lockout:email:" }

/-- `LOCKOUT_CONFIG.ip`: looser, longer lock for suspected attackers. -/
def LOCKOUT_CONFIG_ip : LockoutConfig :=
  { maxAttempts := 20, windowMs := 15 * 60 * 1000, lockoutMs := 60 * 60 * 1000,
    keyPrefix := "lockout:ip:" }

/-- `LockoutType` (`'email' | 'ip'`). -/
inductive LockoutType
  | email
  | ip
  deriving DecidableEq, Repr

/-- `LOCKOUT_CONFIG[type]`. -/
def LockoutType.config : LockoutType → LockoutConfig
  | LockoutType.email => LOCKOUT_CONFIG_email
  | LockoutType.ip => LOCKOUT_CONFIG_ip

/-- `LockoutStatus` as returned by the guard.  `lockoutEndsAt` is an
absolute time in the seconds-based clock of the Redis model. -/
structure LockoutStatus where
  locked : Bool
  attemptsRemaining : Nat
  lockoutEndsAt : Option Nat := none
  lockedBy : Option LockoutType := none
  deriving DecidableEq, Repr

/-- `recordAttemptForKey`: fails open when Redis is unreachable; otherwise
reports an existing lock, or increments the windowed counter, setting the
lock and clearing the counter when the threshold is reached. -/
def recordAttemptForKey (type : LockoutType) (identifier : String)
    (redisAvailable : Bool) (r : RedisState) (now : Nat) :
    RedisState × LockoutStatus :=
  let config := type.config
  if !redisAvailable then
    (r, { locked := false, attemptsRemaining := config.maxAttempts })
  else
    let key := config.keyPrefix ++ identifier.toLower
    let lockoutKey := key ++ ":locked"
    match redisGet r now lockoutKey with
    | some _ =>
      (r, { locked := true, attemptsRemaining := 0,
            lockoutEndsAt := some (now + redisTtl r now lockoutKey),
            lockedBy := some type })
    | none =>
      let step := redisIncr r now key
      let attempts := step.2
      let r2 := if attempts = 1 then
          redisExpire step.1 now key (config.windowMs / 1000)
        else step.1
      if attempts ≥ config.maxAttempts then
        (redisDel (redisSet r2 now lockoutKey "1" (some (config.lockoutMs / 1000))) key,
         { locked := true, attemptsRemaining := 0,
           lockoutEndsAt := some (now + config.lockoutMs / 1000),
           lockedBy := some type })
      else
        (r2, { locked := false, attemptsRemaining := config.maxAttempts - attempts })

/-- `checkLockoutForKey`: read-only check of one scope; fails open when
Redis is unreachable. -/
def checkLockoutForKey (type : LockoutType) (identifier : String)
    (redisAvailable : Bool) (r : RedisState) (now : Nat) : LockoutStatus :=
  let config := type.config
  if !redisAvailable then
    { locked := false, attemptsRemaining := config.maxAttempts }
  else
    let key := config.keyPrefix ++ identifier.toLower
    let lockoutKey := key ++ ":locked"
    match redisGet r now lockoutKey with
    | some _ =>
      { locked := true, attemptsRemaining := 0,
        lockoutEndsAt := some (now + redisTtl r now lockoutKey),
        lockedBy := some type }
    | none =>
      let attempts := ((redisGet r now key).getD "0").toNat?.getD 0
      { locked := false, attemptsRemaining := config.maxAttempts - attempts }

/-- `recordFailedAttempt`: email scope first, then the ip scope when an
origin is supplied; a lock in either scope is reported, otherwise the
email result is returned. -/
def recordFailedAttempt (email : String) (ip : Option String)
    (redisAvailable : Bool) (r : RedisState) (now : Nat) :
    RedisState × LockoutStatus :=
  let stepE := recordAttemptForKey LockoutType.email email redisAvailable r now
  if stepE.2.locked then stepE
  else match ip with
    | some ipAddr =>
      let stepI := recordAttemptForKey LockoutType.ip ipAddr redisAvailable stepE.1 now
      if stepI.2.locked then stepI else (stepI.1, stepE.2)
    | none => stepE

/-- `checkLockout`: read-only hybrid check; locked if either scope is
locked, otherwise the scope with fewer attempts remaining is reported. -/
def checkLockout (email : String) (ip : Option String)
    (redisAvailable : Bool) (r : RedisState) (now : Nat) : LockoutStatus :=
  let emailResult := checkLockoutForKey LockoutType.email email redisAvailable r now
  if emailResult.locked then emailResult
  else match ip with
    | some ipAddr =>
      let ipResult := checkLockoutForKey LockoutType.ip ipAddr redisAvailable r now
      if ipResult.locked then ipResult
      else if emailResult.attemptsRemaining ≤ ipResult.attemptsRemaining then
        emailResult
      else ipResult
    | none => emailResult

/-- `clearLockout`: deletes the email-scoped counter and lock keys only
(the ip scope persists by design); a no-op when Redis is unreachable. -/
def clearLockout (email : String) (redisAvailable : Bool) (r : RedisState) :
    RedisState :=
  if !redisAvailable then r
  else
    let key := LOCKOUT_CONFIG_email.keyPrefix ++ email.toLower
    let lockoutKey := key ++ ":locked"
    redisDel (redisDel r key) lockoutKey

/-! ## Token verification (`src/services/jwt.ts`) -/

/-- The `typ` kind discriminator embedded in every token. -/
inductive TokenKind
  | access
  | refresh
  | id
  deriving DecidableEq, Repr

/-- The claims a signed token carries (the fields the verifiers read). -/
structure JwtPayload where
  typ : TokenKind
  sid : String
  sub : String
  jti : Option String := none
  exp : Nat
  iss : String
  aud : String
  deriving DecidableEq, Repr

/-- A bearer token as `jwt.verify` sees it: unparsable, signed under the
wrong key, or well-signed with a payload and an optional `kid` header. -/
inductive RawToken
  | malformed
  | badSignature (payload : JwtPayload)
  | signed (payload : JwtPayload) (kid : Option String)
  deriving DecidableEq, Repr

/-- Verification context: configured issuer/audience, clock tolerance,
accepted key ids, and the clock. -/
structure VerifyEnv where
  issuer : String
  audience : String
  clockTolerance : Nat
  validKeyIds : List String
  now : Nat
  deriving DecidableEq, Repr

/-- An `Unauthorized(message, code)` error. -/
structure Unauthorized where
  message : String
  code : String
  deriving DecidableEq, Repr

/-- `verifyToken` (request.ts:134-180): `jwt.verify` checks the parse, the
signature, expiry (with clock tolerance), then audience/issuer; its errors
are mapped to distinct codes.  A `kid` present in the header must be a
known key id. -/
def verifyToken (env : VerifyEnv) (t : RawToken) : Except Unauthorized JwtPayload :=
  match t with
  | RawToken.malformed => Except.error ⟨"Invalid token", "MALFORMED_TOKEN"⟩
  | RawToken.badSignature _ => Except.error ⟨"Invalid token", "INVALID_SIGNATURE"⟩
  | RawToken.signed payload kid =>
    if payload.exp + env.clockTolerance ≤ env.now then
      Except.error ⟨"Token expired", "JWT_EXPIRED"⟩
    else if payload.aud ≠ env.audience ∨ payload.iss ≠ env.issuer then
      Except.error ⟨"Invalid token", "INVALID_CLAIMS"⟩
    else match kid with
      | some k =>
        if env.validKeyIds.contains k then Except.ok payload
        else Except.error ⟨"Invalid token", "Unknown key ID"⟩
      | none => Except.ok payload

/-- `verifyAccessToken` (request.ts:276-285): verify, then reject any
payload whose kind discriminator is not `access`. -/
def verifyAccessToken (env : VerifyEnv) (t : RawToken) :
    Except Unauthorized JwtPayload :=
  match verifyToken env t with
  | Except.error e => Except.error e
  | Except.ok payload =>
    if payload.typ ≠ TokenKind.access then
      Except.error ⟨"Invalid token type", "INVALID_TOKEN_TYPE"⟩
    else Except.ok payload

/-- `verifyRefreshToken` (request.ts:291-305): verify, reject a kind other
than `refresh`, and require a (non-empty) jti. -/
def verifyRefreshToken (env : VerifyEnv) (t : RawToken) :
    Except Unauthorized JwtPayload :=
  match verifyToken env t with
  | Except.error e => Except.error e
  | Except.ok payload =>
    if payload.typ ≠ TokenKind.refresh then
      Except.error ⟨"Invalid token type", "INVALID_TOKEN_TYPE"⟩
    else if payload.jti.getD "" = "" then
      Except.error ⟨"Invalid refresh token", "MISSING_JTI"⟩
    else Except.ok payload

/-! ## Generic query helpers (`src/services/db.ts`, `src/services/security.ts`) -/

/-- `ALLOWED_TABLES`: the fixed table-name allow-list. -/
def ALLOWED_TABLES : List String :=
  ["users", "user_sessions", "error_logs", "audit_logs",
   "password_reset_tokens", "orgs", "org_users"]

/-- `isValidTableName`. -/
def isValidTableName (table : String) : Bool :=
  ALLOWED_TABLES.contains table

/-- `validateTableName`: throws `Invalid table name` for any name outside
the allow-list. -/
def validateTableName (table : String) : Except String Unit :=
  if isValidTableName table then Except.ok ()
  else Except.error ("Invalid table name: " ++ table)

/-- A built SQL statement: the text the helper would hand to the driver
and its bound parameter values.  A helper that fails never builds one. -/
structure SqlStatement where
  text : String
  params : List String
  deriving DecidableEq, Repr

/-- `$i` placeholder. -/
def placeholder (i : Nat) : String := "$" ++ toString i

/-- `($a,$b,...)` placeholder tuple for one inserted row. -/
def placeholderRow (rowIndex n : Nat) : String :=
  "(" ++ String.intercalate ","
    ((List.range n).map (fun c => placeholder (rowIndex * n + c + 1))) ++ ")"

/-- `key=$i AND key=$j ...` equality `WHERE` clause (the `$contains`,
`$overlap`, `$gt/$lt/$ne` operator variants of `getWhereClause` only vary
the comparison text and bind their values the same way; they never touch
the table name). -/
def whereClauseEq (conds : List (String × String)) (startingIndex : Nat) : String :=
  "WHERE " ++ String.intercalate " AND "
    (conds.enum.map (fun ci => ci.2.1 ++ "=" ++ placeholder (startingIndex + ci.1 + 1)))

namespace DB

/-- `DB.insert` (db.ts:233-264): validates the table name first, rejects an
empty values array, then builds the parameterized `INSERT`.  A row is its
(column, value) pairs. -/
def insert (table : String) (valuesArray : List (List (String × String))) :
    Except String SqlStatement :=
  match validateTableName table with
  | Except.error e => Except.error e
  | Except.ok _ =>
    if valuesArray.isEmpty then Except.error "Values array cannot be empty"
    else
      let insertFields := (valuesArray.headD []).map Prod.fst
      let insertValues := (valuesArray.map (fun row => row.map Prod.snd)).flatten
      let valuePlaceholders := String.intercalate ", "
        ((List.range valuesArray.length).map
          (fun rowIndex => placeholderRow rowIndex insertFields.length))
      Except.ok
        { text := "INSERT INTO " ++ table ++ " (" ++
            String.intercalate "," insertFields ++ ") VALUES " ++
            valuePlaceholders ++ " RETURNING *;",
          params := insertValues }

/-- `DB.upsert` (db.ts:268-312): validates the table name first, rejects
empty conflict columns and empty values, then builds the parameterized
`INSERT ... ON CONFLICT`. -/
def upsert (table : String) (values : List (String × String))
    (conflictColumns : List String) (updateColumns : Option (List String)) :
    Except String SqlStatement :=
  match validateTableName table with
  | Except.error e => Except.error e
  | Except.ok _ =>
    if conflictColumns.isEmpty then Except.error "Conflict columns cannot be empty"
    else
      let insertFields := values.map Prod.fst
      if insertFields.isEmpty then Except.error "Values object cannot be empty"
      else
        let cols := match updateColumns with
          | some l => if l.contains "*" then insertFields else l
          | none => insertFields.filter (fun f => !conflictColumns.contains f)
        let updateClause := if cols.isEmpty then "DO NOTHING"
          else "DO UPDATE SET " ++ String.intercalate ", "
            (cols.map (fun c => c ++ "=EXCLUDED." ++ c))
        Except.ok
          { text := "INSERT INTO " ++ table ++ " (" ++
              String.intercalate "," insertFields ++ ") VALUES (" ++
              String.intercalate ", "
                ((List.range insertFields.length).map (fun i => placeholder (i + 1))) ++
              ") ON CONFLICT (" ++ String.intercalate ", " conflictColumns ++ ") " ++
              updateClause ++ " RETURNING *;",
            params := values.map Prod.snd }

/-- `DB.find` (db.ts:372-389): validates the table name first, then builds
the parameterized `SELECT`. -/
def find (table : String) (whereConds : List (String × String)) :
    Except String SqlStatement :=
  match validateTableName table with
  | Except.error e => Except.error e
  | Except.ok _ =>
    Except.ok
      { text := "SELECT * FROM " ++ table ++ " " ++ whereClauseEq whereConds 0 ++ ";",
        params := whereConds.map Prod.snd }

/-- `DB.delete` (db.ts:394-416): validates the table name first, then
builds the parameterized `DELETE`. -/
def delete (table : String) (whereConds : List (String × String)) :
    Except String SqlStatement :=
  match validateTableName table with
  | Except.error e => Except.error e
  | Except.ok _ =>
    Except.ok
      { text := "DELETE FROM " ++ table ++ " " ++ whereClauseEq whereConds 0 ++ ";",
        params := whereConds.map Prod.snd }

/-- `DB.update` (db.ts:423-448): validates the table name first, then
builds the parameterized `UPDATE`. -/
def update (table : String) (values : List (String × String))
    (whereConds : List (String × String)) : Except String SqlStatement :=
  match validateTableName table with
  | Except.error e => Except.error e
  | Except.ok _ =>
    let setFields := values.map Prod.fst
    Except.ok
      { text := "UPDATE " ++ table ++ " SET " ++
          String.intercalate ", "
            (setFields.enum.map (fun fi => fi.2 ++ "=" ++ placeholder (fi.1 + 1))) ++
          " " ++ whereClauseEq whereConds setFields.length ++ " RETURNING *;",
        params := values.map Prod.snd ++ whereConds.map Prod.snd }

end DB

/-! ## Legacy AuthCache verification path (`src/services/db.ts`, second unit) -/

/-- The user data a legacy refresh token carries. -/
structure RTUser where
  email : String
  deriving DecidableEq, Repr

/-- `RefreshTokenData`: the claims the legacy path reads. -/
structure RefreshTokenData where
  sid : String
  user : RTUser
  deriving DecidableEq, Repr

/-- A legacy cookie token as `decryptToken` sees it: `jwt.verify` either
yields its payload or throws (and `decryptToken` returns null). -/
inductive LegacyToken
  | valid (data : RefreshTokenData)
  | invalid
  deriving DecidableEq, Repr

/-- `decryptToken` (legacy auth.ts): verified payload or null; it catches
every verification error and never throws. -/
def decryptToken : LegacyToken → Option RefreshTokenData
  | LegacyToken.valid d => some d
  | LegacyToken.invalid => none

/-- The cookie triple handed to the legacy `AuthCache`. -/
structure ValidateTokens where
  accessToken : Option LegacyToken
  idToken : Option LegacyToken
  refreshToken : Option LegacyToken
  deriving DecidableEq, Repr

/-- `TokenStatus.status`. -/
inductive TokenStatusKind
  | valid
  | expired
  | invalid
  deriving DecidableEq, Repr

/-- `validateTokenStatus` (legacy auth.ts:137-148): `expired` when either
cookie is missing; otherwise `valid` — because `decryptToken` swallows its
errors and returns null instead of throwing, the `catch` branch that would
return `expired`/`invalid` is unreachable. -/
def validateTokenStatus (tokens : ValidateTokens) : TokenStatusKind :=
  match tokens.accessToken, tokens.idToken with
  | some _, some _ => TokenStatusKind.valid
  | _, _ => TokenStatusKind.expired

/-- Failure of the legacy verification path: an `Unauthorized` with its
detail, or the `TypeError` crash of reading `.sid` on a null
`decryptToken` result. -/
inductive ACError
  | unauthorized (detail : String)
  | typeError
  deriving DecidableEq, Repr

/-- `getSidExpirationSQL()`: now plus the refresh-token lifetime (7 days,
in the seconds clock of the model). -/
def getSidExpirationS (now : Nat) : Nat := now + 7 * 24 * 60 * 60

namespace AuthCache

/-- `AuthCache.verifyRefreshToken`: requires the refresh cookie, decodes
it, and requires an active session for its sid (a durable-store read in
both the cached and uncached paths).  In `AuthState`, `users` holds the
emails `getUserByEmail` resolves. -/
def verifyRefreshToken (st : AuthState) (tokens : ValidateTokens) :
    Except ACError RefreshTokenData :=
  match tokens.refreshToken with
  | none => Except.error (ACError.unauthorized "Missing x-refresh-token header")
  | some rt =>
    match decryptToken rt with
    | none => Except.error ACError.typeError
    | some rtd =>
      match getActiveSession st.sessions st.now rtd.sid with
      | none => Except.error (ACError.unauthorized "No active session")
      | some _ => Except.ok rtd

/-- `AuthCache.updateUserSession`: pushes the session expiry forward. -/
def updateUserSession (tbl : SessionTable) (now : Nat) (sid : String) :
    SessionTable :=
  tbl.map (fun s => if s.sid = sid then
    { s with expires_at := getSidExpirationS now } else s)

/-- `AuthCache.validateTokens` (db.ts:519-537): durable validation — the
user must exist and the access/id cookies must not be invalid; an expired
pair is re-issued; the user is returned. -/
def validateTokens (st : AuthState) (rtd : RefreshTokenData)
    (tokens : ValidateTokens) : Except ACError String :=
  if ¬ st.users.contains rtd.user.email then
    Except.error (ACError.unauthorized "")
  else match validateTokenStatus tokens with
    | TokenStatusKind.invalid => Except.error (ACError.unauthorized "")
    | TokenStatusKind.valid => Except.ok rtd.user.email
    | TokenStatusKind.expired => Except.ok rtd.user.email

/-- The cache-miss continuation of `execute`: run the durable validation;
on success cache the result (when Redis is reachable) and refresh the
session expiry. -/
def runValidation (st : AuthState) (key : String) (tokens : ValidateTokens)
    (rtd : RefreshTokenData) : AuthState × Except ACError String :=
  match validateTokens st rtd tokens with
  | Except.error e => (st, Except.error e)
  | Except.ok user =>
    let redis1 := if st.redisAvailable then
        redisSet st.redis st.now ("verify:" ++ key) user (some 600)
      else st.redis
    ({ st with sessions := updateUserSession st.sessions st.now rtd.sid,
               redis := redis1 },
     Except.ok user)

/-- `AuthCache.execute` (db.ts:544-571): verify the refresh token and the
active session; when Redis is reachable and holds a `verify:{key}` entry,
return it without durable validation; otherwise run the durable
validation (the in-flight deduplication map is empty for the single
request modeled here, so the request awaits its own validation). -/
def execute (st : AuthState) (key : String) (tokens : ValidateTokens) :
    AuthState × Except ACError String :=
  match verifyRefreshToken st tokens with
  | Except.error e => (st, Except.error e)
  | Except.ok rtd =>
    if st.redisAvailable then
      match redisGet st.redis st.now ("verify:" ++ key) with
      | some cached =>
        ({ st with sessions := updateUserSession st.sessions st.now rtd.sid },
         Except.ok cached)
      | none => runValidation st key tokens rtd
    else runValidation st key tokens rtd

end AuthCache

/-! ## Concrete fixtures

The witnesses and counterexamples below evaluate the embedding on small
concrete states.  `hashC` stands in for the SHA-256 hex digest `hashJti`;
like the digest it is injective and never returns its own input on the
identifiers used here. -/

/-- Concrete stand-in for the `hashJti` SHA-256 digest. -/
def hashC (s : String) : String := "sha256:" ++ s

/-- C1 fixture: one active session whose current identifier is the hash of
jti `j0`. -/
def c1sess : UserSessionDB :=
  { sid := "sC1", user_id := "uC1", refresh_jti := hashC "j0",
    status := SessionStatus.active, expires_at := 1000 }

/-- C1 fixture: controller state holding that session and its user. -/
def c1st : AuthState :=
  { sessions := [c1sess], users := ["uC1"], redis := [],
    redisAvailable := false, now := 10 }

/-- C1 fixture: the (still current) refresh token both requests present. -/
def c1payload : RefreshTokenPayload := { sid := "sC1", sub := "uC1", jti := "j0" }

/-- C2 fixture: the subject's active session, already rotated to `j1`. -/
def c2active : UserSessionDB :=
  { sid := "sC2", user_id := "uC2", refresh_jti := hashC "j1",
    status := SessionStatus.active, expires_at := 1000 }

/-- C2 fixture: a second session of the same subject, already expired. -/
def c2expired : UserSessionDB :=
  { sid := "sC2b", user_id := "uC2", refresh_jti := hashC "jb",
    status := SessionStatus.expired, expires_at := 40 }

/-- C2 fixture: controller state with both sessions. -/
def c2st : AuthState :=
  { sessions := [c2active, c2expired], users := ["uC2"], redis := [],
    redisAvailable := false, now := 100 }

/-- C2 fixture: the stale (rotated-away) refresh token being replayed. -/
def c2payload : RefreshTokenPayload := { sid := "sC2", sub := "uC2", jti := "j0" }

/-- C3 fixture: a session already in the terminal `expired` status. -/
def c3sess : UserSessionDB :=
  { sid := "sC3", user_id := "uC3", refresh_jti := "hC3",
    status := SessionStatus.expired, expires_at := 50 }

/-- C4 fixture: an expired session reachable by the logout controller (the
auth middleware validates the access token but, with default options, does
not check the durable session status). -/
def c4sess : UserSessionDB :=
  { sid := "sC4", user_id := "uC4", refresh_jti := "hC4",
    status := SessionStatus.expired, expires_at := 10 }

/-- C4 fixture: logout-controller state holding only that session. -/
def c4st : AuthState :=
  { sessions := [c4sess], users := ["uC4"], redis := [],
    redisAvailable := false, now := 99 }

/-- C10 fixture: a revoked session that still stores the hash of the
presented jti — its refresh token is being replayed after revocation. -/
def c10sess : UserSessionDB :=
  { sid := "sC10", user_id := "uC10", refresh_jti := hashC "j0",
    status := SessionStatus.revoked, expires_at := 1000,
    revoke_reason := some RevokeReason.logout }

/-- C10 fixture: controller state holding only that revoked session. -/
def c10st : AuthState :=
  { sessions := [c10sess], users := ["uC10"], redis := [],
    redisAvailable := true, now := 100 }

/-- C10 fixture: the replayed refresh token naming the revoked session. -/
def c10payload : RefreshTokenPayload := { sid := "sC10", sub := "uC10", jti := "j0" }

/-- C5 fixture: the verification target session, active for its sid. -/
def c5sess : UserSessionDB :=
  { sid := "sC5", user_id := "uC5", refresh_jti := hashC "j5",
    status := SessionStatus.active, expires_at := 10000 }

/-- C5 fixture: a cached verification entry is live for the session key,
but the user has been deleted (`users` is empty), so the durable
validation would fail.  Redis is reachable. -/
def c5stOn : AuthState :=
  { sessions := [c5sess], users := [],
    redis := [{ key := "verify:sC5", val := "u5@x", expiresAt := some 500 }],
    redisAvailable := true, now := 100 }

/-- C5 fixture: the same state with the cache backend unreachable. -/
def c5stOff : AuthState :=
  { c5stOn with redisAvailable := false }

/-- C5 fixture: a full, decodable cookie triple for the session. -/
def c5tokens : ValidateTokens :=
  { accessToken := some LegacyToken.invalid,
    idToken := some LegacyToken.invalid,
    refreshToken := some (LegacyToken.valid ⟨"sC5", ⟨"u5@x"⟩⟩) }

/-- C6/C7 fixture: a Redis state holding live email- and ip-scoped
lockout counters and locks. -/
def c6redis : RedisState :=
  [ { key := "lockout:email:a@b.c", val := "3", expiresAt := some 900 },
    { key := "lockout:email:a@b.c:locked", val := "1", expiresAt := some 1800 },
    { key := "lockout:ip:1.2.3.4", val := "7", expiresAt := some 900 },
    { key := "lockout:ip:1.2.3.4:locked", val := "1", expiresAt := some 3600 } ]

/-- C8 fixture: the configured verification context. -/
def c8env : VerifyEnv :=
  { issuer := "base-express", audience := "base-express-api",
    clockTolerance := 5, validKeyIds := ["k1"], now := 1000 }

/-- C8 fixture: a well-signed, unexpired refresh token. -/
def c8refreshPayload : JwtPayload :=
  { typ := TokenKind.refresh, sid := "s8", sub := "u8", jti := some "j8",
    exp := 2000, iss := "base-express", aud := "base-express-api" }

/-- C8 fixture: the same claims but already expired. -/
def c8expiredPayload : JwtPayload :=
  { c8refreshPayload with exp := 900 }

/-- C9 fixture: a one-row insert payload. -/
def c9row : List (String × String) := [("email", "a@b.c"), ("name", "A")]

/-! ## Helper lemmas -/

/-- Mapping a function over a list relates every element to its image. -/
theorem forall2_map_self {α : Type} (r : α → α → Prop) (f : α → α)
    (h : ∀ a, r a (f a)) : ∀ l : List α, List.Forall₂ r l (l.map f)
  | [] => List.Forall₂.nil
  | a :: l => List.Forall₂.cons (h a) (forall2_map_self r f h l)

/-- Revoking a session twice is the same as revoking it once. -/
theorem revokeSession_idem (tbl : SessionTable) (now : Nat) (sid : String)
    (reason : RevokeReason) :
    revokeSession (revokeSession tbl now sid reason) now sid reason
      = revokeSession tbl now sid reason := by
  simp only [revokeSession, List.map_map]
  apply List.map_congr_left
  intro s _
  by_cases h : s.sid = sid <;> simp [Function.comp, h, revokeUpd]

/-- Deleting a Redis key twice is the same as deleting it once. -/
theorem redisDel_idem (r : RedisState) (k : String) :
    redisDel (redisDel r k) k = redisDel r k := by
  simp only [redisDel, List.filter_filter]
  apply List.filter_congr
  intro e _
  simp

/-- Filtering away everything the search predicate accepts makes the
search fail. -/
theorem find?_filter_none {α : Type} (p q : α → Bool) (l : List α)
    (h : ∀ a, q a = true → p a = false) : (l.filter q).find? p = none := by
  induction l with
  | nil => rfl
  | cons a l ih =>
    by_cases hq : q a = true
    · rw [List.filter_cons_of_pos hq, List.find?_cons_of_neg _ (by simp [h a hq])]
      exact ih
    · rw [List.filter_cons_of_neg (by simpa using hq)]
      exact ih

/-- A filter that keeps everything the search predicate accepts does not
change the search result. -/
theorem find?_filter_keep {α : Type} (p q : α → Bool) (l : List α)
    (h : ∀ a, p a = true → q a = true) : (l.filter q).find? p = l.find? p := by
  induction l with
  | nil => rfl
  | cons a l ih =>
    by_cases hp : p a = true
    · rw [List.filter_cons_of_pos (h a hp), List.find?_cons_of_pos _ hp,
        List.find?_cons_of_pos _ hp]
    · by_cases hq : q a = true
      · rw [List.filter_cons_of_pos hq, List.find?_cons_of_neg _ (by simpa using hp),
          List.find?_cons_of_neg _ (by simpa using hp)]
        exact ih
      · rw [List.filter_cons_of_neg (by simpa using hq),
          List.find?_cons_of_neg _ (by simpa using hp)]
        exact ih

/-- Reading a deleted key gives nothing. -/
theorem redisGet_del_self (r : RedisState) (now : Nat) (k : String) :
    redisGet (redisDel r k) now k = none := by
  unfold redisGet redisDel
  rw [find?_filter_none]
  intro a ha
  simp at ha ⊢
  exact ha

/-- Deleting one key leaves every other key unchanged. -/
theorem redisGet_del_other (r : RedisState) (now : Nat) (k k2 : String)
    (h : k2 ≠ k) : redisGet (redisDel r k) now k2 = redisGet r now k2 := by
  unfold redisGet redisDel
  rw [find?_filter_keep]
  intro a ha
  simp at ha ⊢
  rw [ha]
  exact h

/-- Two string prepends with different characters at a common index are
never equal, whatever the suffixes. -/
theorem append_ne_of_data_ne (p1 p2 a b : String) (i : Nat)
    (h1 : i < p1.data.length) (h2 : i < p2.data.length)
    (hne : p1.data[i]? ≠ p2.data[i]?) : p1 ++ a ≠ p2 ++ b := by
  intro h
  apply hne
  have hd : p1.data ++ a.data = p2.data ++ b.data := congrArg String.data h
  have e1 : (p1.data ++ a.data)[i]? = p1.data[i]? := List.getElem?_append_left h1
  have e2 : (p2.data ++ b.data)[i]? = p2.data[i]? := List.getElem?_append_left h2
  rw [← e1, ← e2, hd]

/-! ## C3 — session status transitions -/

/-- C3 counterexample: `revokeSession` (the operation behind logout) has no
status guard in its `WHERE` clause, so it moves an **expired** session back
to `revoked` — a transition out of a terminal status, contradicting the
claim that no operation changes the status of an already expired session. -/
theorem c3_counterexample :
    c3sess.status = SessionStatus.expired ∧
    (revokeSession [c3sess] 100 "sC3" RevokeReason.logout).map UserSessionDB.status
      = [SessionStatus.revoked] := by decide

/-- C3 amended: `revokeAllUserSessions`, `cleanupExpiredSessions` and
`rotateRefreshToken` are monotonic — they touch only active sessions
(active→revoked, active→expired, and rotation never changes status) — but
`revokeSession` sets the addressed sid to `revoked` regardless of its prior
status, and leaves all other rows untouched. -/
theorem c3_amended (tbl : SessionTable) (now : Nat) (userId : String)
    (reasonA : RevokeReason) (exceptSid : Option String)
    (hash : String → String) (rsid newJti : String)
    (sid : String) (reasonR : RevokeReason) :
    List.Forall₂ (fun s t => t.status = s.status ∨
        (s.status = SessionStatus.active ∧ t.status = SessionStatus.revoked))
      tbl (revokeAllUserSessions tbl now userId reasonA exceptSid).1 ∧
    List.Forall₂ (fun s t => t.status = s.status ∨
        (s.status = SessionStatus.active ∧ t.status = SessionStatus.expired))
      tbl (cleanupExpiredSessions tbl now).1 ∧
    List.Forall₂ (fun s t => t.status = s.status)
      tbl (rotateRefreshToken hash tbl now rsid newJti).1 ∧
    List.Forall₂ (fun s t =>
        (s.sid = sid → t = revokeUpd now reasonR s) ∧ (s.sid ≠ sid → t = s))
      tbl (revokeSession tbl now sid reasonR) := by
  refine ⟨?_, ?_, ?_, ?_⟩
  · refine forall2_map_self _ _ (fun s => ?_) tbl
    split
    next h =>
      right
      rw [Bool.and_eq_true] at h
      exact ⟨(of_decide_eq_true h.1).2, rfl⟩
    next => left; rfl
  · refine forall2_map_self _ _ (fun s => ?_) tbl
    split
    next h => right; exact ⟨(of_decide_eq_true h).1, rfl⟩
    next => left; rfl
  · refine forall2_map_self _ _ (fun s => ?_) tbl
    split
    next => rfl
    next => rfl
  · refine forall2_map_self _ _ (fun s => ?_) tbl
    split
    next h => exact ⟨fun _ => rfl, fun hn => absurd h hn⟩
    next h => exact ⟨fun hc => absurd hc h, fun _ => rfl⟩

/-! ## C4 — idempotent logout -/

/-- C4 counterexample: logging out a session that is already non-active
does **not** leave it in the same terminal state — an `expired` session is
moved to `revoked` (reason `logout`), because `revokeSession` matches on
sid alone. -/
theorem c4_counterexample :
    c4sess.status = SessionStatus.expired ∧
    (logout c4st (some "uC4") (some "sC4")).1.sessions.map UserSessionDB.status
      = [SessionStatus.revoked] ∧
    (logout c4st (some "uC4") (some "sC4")).2 = true := by decide

/-- C4 amended: calling logout twice yields exactly the same state as
calling it once and the second call does not error; however logout of an
already non-active session is not a no-op — it forces status `revoked`
with reason `logout` whatever the prior terminal status was. -/
theorem c4_amended (st : AuthState) (u sid : String) :
    (logout st (some u) (some sid)).2 = true ∧
    (logout (logout st (some u) (some sid)).1 (some u) (some sid)).2 = true ∧
    (logout (logout st (some u) (some sid)).1 (some u) (some sid)).1
      = (logout st (some u) (some sid)).1 ∧
    List.Forall₂ (fun s t =>
        (s.sid = sid → t = revokeUpd st.now RevokeReason.logout s) ∧
        (s.sid ≠ sid → t = s))
      st.sessions (logout st (some u) (some sid)).1.sessions := by
  refine ⟨rfl, rfl, ?_, ?_⟩
  · simp only [logout]
    cases hA : st.redisAvailable with
    | false => simp [hA, revokeSession_idem]
    | true => simp [hA, revokeSession_idem, redisDel_idem]
  · show List.Forall₂ _ st.sessions (revokeSession st.sessions st.now sid RevokeReason.logout)
    refine forall2_map_self _ _ (fun s => ?_) st.sessions
    split
    next h => exact ⟨fun _ => rfl, fun hn => absurd h hn⟩
    next h => exact ⟨fun hc => absurd hc h, fun _ => rfl⟩

/-! ## C1 — conditional rotation update -/

/-- C1: the rotation `UPDATE` of `rotateRefreshToken` is **not**
replace-if-current-identifier-matches — its `WHERE` clause names only the
sid and the active status — so two refresh requests presenting the same
refresh token, interleaved at the one-time-use lookup, both rotate and
both succeed, and the second rotation silently overwrites the first.
This contradicts both the claim and the spec's own test (“never two
successes”), while the controller's comments promise one-time use. -/
theorem c1_rotation_race_two_successes :
    (twoRefreshInterleaving hashC c1st c1payload "j1" "j2").2.1
      = RefreshResult.ok "j1" ∧
    (twoRefreshInterleaving hashC c1st c1payload "j1" "j2").2.2
      = RefreshResult.ok "j2" ∧
    (twoRefreshInterleaving hashC c1st c1payload "j1" "j2").1.sessions.map
        UserSessionDB.refresh_jti = [hashC "j2"] := by decide

/-! ## C2 — reuse response -/

/-- C2 counterexample: the reuse response revokes only the subject's
**active** sessions (`revokeAllUserSessions` filters on
`status = 'active'`), so a session of the same subject that is already
expired keeps its status — afterwards not all of the subject's sessions
are `revoked` with reason `token_reuse`, contradicting the claim's final
clause. -/
theorem c2_counterexample :
    (refreshCore hashC c2st c2payload "jC2n").2
      = RefreshResult.err AuthCode.TOKEN_REUSE_DETECTED ∧
    ¬ (∀ s ∈ (refreshCore hashC c2st c2payload "jC2n").1.sessions,
        s.user_id = "uC2" → s.status = SessionStatus.revoked ∧
          s.revoke_reason = some RevokeReason.token_reuse) := by decide

/-- C2 amended: when the presented jti's hash is not the current identifier
of any active session while the session named by the token's sid is active
with a different current identifier, refresh fails with
`TOKEN_REUSE_DETECTED`, revokes every session of the subject that was
**active** with reason `token_reuse` leaving every other session unchanged,
and — when Redis is reachable — deletes the `session:{sid}` and
`user:{sub}` cache entries. -/
theorem c2_amended (hash : String → String) (st : AuthState)
    (p : RefreshTokenPayload) (newJti : String) (es : UserSessionDB)
    (hmiss : getSessionByRefreshJti hash st.sessions p.jti = none)
    (hsid : getActiveSession st.sessions st.now p.sid = some es)
    (hdiff : es.refresh_jti ≠ p.jti) :
    (refreshCore hash st p newJti).2
      = RefreshResult.err AuthCode.TOKEN_REUSE_DETECTED ∧
    List.Forall₂ (fun s t =>
        (s.user_id = p.sub ∧ s.status = SessionStatus.active →
          t.status = SessionStatus.revoked ∧
            t.revoke_reason = some RevokeReason.token_reuse) ∧
        (¬ (s.user_id = p.sub ∧ s.status = SessionStatus.active) → t = s))
      st.sessions (refreshCore hash st p newJti).1.sessions ∧
    (st.redisAvailable = true →
      redisGet (refreshCore hash st p newJti).1.redis st.now
          ("session:" ++ p.sid) = none ∧
      redisGet (refreshCore hash st p newJti).1.redis st.now
          ("user:" ++ p.sub) = none) := by
  have hred : refreshCore hash st p newJti =
      ({ st with
          sessions := (revokeAllUserSessions st.sessions st.now p.sub
            RevokeReason.token_reuse none).1,
          redis := if st.redisAvailable then
              redisDel (redisDel st.redis ("session:" ++ p.sid))
                ("user:" ++ p.sub)
            else st.redis },
        RefreshResult.err AuthCode.TOKEN_REUSE_DETECTED) := by
    unfold refreshCore
    rw [hmiss]
    simp only [refreshResume, hsid]
    rw [if_pos hdiff]
  rw [hred]
  refine ⟨rfl, ?_, ?_⟩
  · simp only [revokeAllUserSessions]
    refine forall2_map_self _ _ (fun s => ?_) st.sessions
    split
    next h =>
      rw [Bool.and_eq_true] at h
      have hP := of_decide_eq_true h.1
      exact ⟨fun _ => ⟨rfl, rfl⟩, fun hn => absurd hP hn⟩
    next h =>
      refine ⟨fun hP => absurd ?_ h, fun _ => rfl⟩
      simp [hP.1, hP.2]
  · intro hAvail
    simp only [hAvail, if_true]
    constructor
    · rw [redisGet_del_other _ _ _ _ ?hne]
      · exact redisGet_del_self _ _ _
      case hne =>
        refine append_ne_of_data_ne "session:" "user:" p.sid p.sub 0
          (by decide) (by decide) (by decide)
    · exact redisGet_del_self _ _ _

/-- C2 amended, witnessed on the two-session fixture: the reuse response
fires, the subject's active session is revoked with `token_reuse`, and the
expired one is untouched (Redis is unreachable in this fixture, so the
cache clause holds vacuously). -/
theorem c2_amended_witness :
    (refreshCore hashC c2st c2payload "jC2n").2
      = RefreshResult.err AuthCode.TOKEN_REUSE_DETECTED ∧
    List.Forall₂ (fun s t =>
        (s.user_id = c2payload.sub ∧ s.status = SessionStatus.active →
          t.status = SessionStatus.revoked ∧
            t.revoke_reason = some RevokeReason.token_reuse) ∧
        (¬ (s.user_id = c2payload.sub ∧ s.status = SessionStatus.active) → t = s))
      c2st.sessions (refreshCore hashC c2st c2payload "jC2n").1.sessions ∧
    (c2st.redisAvailable = true →
      redisGet (refreshCore hashC c2st c2payload "jC2n").1.redis c2st.now
          ("session:" ++ c2payload.sid) = none ∧
      redisGet (refreshCore hashC c2st c2payload "jC2n").1.redis c2st.now
          ("user:" ++ c2payload.sub) = none) :=
  c2_amended hashC c2st c2payload "jC2n" c2active (by decide) (by decide) (by decide)

/-! ## C10 — invalid-session refresh -/

/-- C10: when the presented jti belongs to the session named by the token's
sid (as it does for every issued token) and that session is not in the
`active` status — revoked, expired, or absent altogether — the refresh
fails with `SESSION_NOT_FOUND` and the state is unchanged: no revocation,
no cache invalidation.  The theft response therefore fires only when the
session is currently active with a different current identifier. -/
theorem c10_inactive_refresh (hash : String → String) (st : AuthState)
    (p : RefreshTokenPayload) (newJti : String)
    (hown : ∀ s ∈ st.sessions, s.refresh_jti = hash p.jti → s.sid = p.sid)
    (hinact : ∀ s ∈ st.sessions, s.sid = p.sid → s.status ≠ SessionStatus.active) :
    refreshCore hash st p newJti = (st, RefreshResult.err AuthCode.SESSION_NOT_FOUND) := by
  have hmiss : getSessionByRefreshJti hash st.sessions p.jti = none := by
    unfold getSessionByRefreshJti
    have hnil : st.sessions.filter (fun s =>
        decide (s.refresh_jti = hash p.jti ∧ s.status = SessionStatus.active)) = [] := by
      rw [List.filter_eq_nil_iff]
      intro s hs
      simp only [decide_eq_true_eq]
      intro hc
      exact hinact s hs (hown s hs hc.1) hc.2
    show (st.sessions.filter (fun s =>
      decide (s.refresh_jti = hash p.jti ∧ s.status = SessionStatus.active))).head? = none
    rw [hnil]
    rfl
  have hact : getActiveSession st.sessions st.now p.sid = none := by
    unfold getActiveSession
    have hnil : st.sessions.filter (fun s =>
        decide (s.sid = p.sid ∧ s.status = SessionStatus.active ∧
          st.now < s.expires_at)) = [] := by
      rw [List.filter_eq_nil_iff]
      intro s hs
      simp only [decide_eq_true_eq]
      intro hc
      exact hinact s hs hc.1 hc.2.1
    rw [hnil]
    rfl
  unfold refreshCore
  rw [hmiss]
  simp only [refreshResume, hact]

/-- C10 witnessed on a revoked session whose old refresh token is
replayed: the request fails with `SESSION_NOT_FOUND` and nothing changes. -/
theorem c10_inactive_refresh_witness :
    refreshCore hashC c10st c10payload "jN"
      = (c10st, RefreshResult.err AuthCode.SESSION_NOT_FOUND) :=
  c10_inactive_refresh hashC c10st c10payload "jN" (by decide) (by decide)

/-! ## C5 — cache-absent verification equivalence -/

/-- C5 counterexample: with the cache present, a live `verify:{key}` entry
is returned without durable validation, so a request whose user has been
deleted still passes; with the cache unreachable, the same request reaches
the durable validation and fails.  The pass/fail outcome therefore differs
between cache-present and cache-absent, contradicting the claim. -/
theorem c5_counterexample :
    (AuthCache.execute c5stOn "sC5" c5tokens).2 = Except.ok "u5@x" ∧
    (AuthCache.execute c5stOff "sC5" c5tokens).2
      = Except.error (ACError.unauthorized "") := by
  exact ⟨rfl, rfl⟩

/-- C5 amended: when the cache holds **no** verification entry for the
session key, the pass/fail outcome (and the value) of `AuthCache.execute`
with the cache backend reachable equals the outcome with the backend
unreachable: both run the same durable validation against the Session
Ledger.  A live cached entry, however, short-circuits the durable
validation until its TTL expires (see the counterexample). -/
theorem c5_amended (sessions : SessionTable) (users : List String)
    (redis : RedisState) (now : Nat) (key : String) (tokens : ValidateTokens)
    (hmiss : redisGet redis now ("verify:" ++ key) = none) :
    (AuthCache.execute ⟨sessions, users, redis, true, now⟩ key tokens).2
      = (AuthCache.execute ⟨sessions, users, redis, false, now⟩ key tokens).2 := by
  unfold AuthCache.execute
  have hsame : AuthCache.verifyRefreshToken ⟨sessions, users, redis, false, now⟩ tokens
      = AuthCache.verifyRefreshToken ⟨sessions, users, redis, true, now⟩ tokens := rfl
  rw [hsame]
  cases hv : AuthCache.verifyRefreshToken ⟨sessions, users, redis, true, now⟩ tokens with
  | error e => rfl
  | ok rtd =>
    have hrun : (AuthCache.runValidation ⟨sessions, users, redis, true, now⟩
          key tokens rtd).2
        = (AuthCache.runValidation ⟨sessions, users, redis, false, now⟩
          key tokens rtd).2 := by
      unfold AuthCache.runValidation
      have hval : AuthCache.validateTokens ⟨sessions, users, redis, false, now⟩ rtd tokens
          = AuthCache.validateTokens ⟨sessions, users, redis, true, now⟩ rtd tokens := rfl
      rw [hval]
      cases AuthCache.validateTokens ⟨sessions, users, redis, true, now⟩ rtd tokens with
      | error e => rfl
      | ok user => rfl
    dsimp only
    rw [hmiss]
    exact hrun

/-- C5 amended, witnessed on a cache-miss state with the user present:
both runs validate durably and agree. -/
theorem c5_amended_witness :
    (AuthCache.execute ⟨[c5sess], ["u5@x"], [], true, 100⟩ "sC5" c5tokens).2
      = (AuthCache.execute ⟨[c5sess], ["u5@x"], [], false, 100⟩ "sC5" c5tokens).2 :=
  c5_amended [c5sess] ["u5@x"] [] 100 "sC5" c5tokens rfl

/-! ## C6 — clearOnSuccess frame -/

/-- An ip-scoped lockout key never coincides with an email-scoped one:
the prefixes differ at character 8. -/
theorem ip_key_ne_email_key (i x : String) :
    "lockout:ip:" ++ i ≠ "lockout:email:" ++ x :=
  append_ne_of_data_ne "lockout:ip:" "lockout:email:" i x 8
    (by decide) (by decide) (by decide)

/-- C6: `clearLockout` mutates only the email-scoped counter and email
lock for the given email: every ip-scoped key — and in fact every key
other than those two — reads the same afterwards. -/
theorem c6_clear_frame (redisAvailable : Bool) (r : RedisState)
    (email : String) (now : Nat) :
    (∀ k : String, k ≠ "lockout:email:" ++ email.toLower →
      k ≠ "lockout:email:" ++ email.toLower ++ ":locked" →
      redisGet (clearLockout email redisAvailable r) now k = redisGet r now k) ∧
    (∀ i : String,
      redisGet (clearLockout email redisAvailable r) now ("lockout:ip:" ++ i)
        = redisGet r now ("lockout:ip:" ++ i)) := by
  have hmain : ∀ k : String, k ≠ "lockout:email:" ++ email.toLower →
      k ≠ "lockout:email:" ++ email.toLower ++ ":locked" →
      redisGet (clearLockout email redisAvailable r) now k = redisGet r now k := by
    intro k hk1 hk2
    unfold clearLockout
    cases redisAvailable with
    | false => rfl
    | true =>
      show redisGet (redisDel (redisDel r ("lockout:email:" ++ email.toLower))
          ("lockout:email:" ++ email.toLower ++ ":locked")) now k = redisGet r now k
      rw [redisGet_del_other _ _ _ _ hk2, redisGet_del_other _ _ _ _ hk1]
  refine ⟨hmain, fun i => hmain _ (ip_key_ne_email_key i email.toLower) ?_⟩
  intro h
  apply ip_key_ne_email_key i (email.toLower ++ ":locked")
  rw [String.append_assoc] at h
  exact h

/-- C6 witnessed on a concrete state holding counters and locks in both
scopes: clearing on success leaves the ip-scoped keys untouched. -/
theorem c6_clear_frame_witness :
    redisGet (clearLockout "A@B.C" true c6redis) 100 ("lockout:ip:" ++ "1.2.3.4")
      = redisGet c6redis 100 ("lockout:ip:" ++ "1.2.3.4") ∧
    redisGet (clearLockout "A@B.C" true c6redis) 100 "lockout:ip:1.2.3.4:locked"
      = redisGet c6redis 100 "lockout:ip:1.2.3.4:locked" := by
  have h := c6_clear_frame true c6redis "A@B.C" 100
  exact ⟨h.2 "1.2.3.4", h.1 "lockout:ip:1.2.3.4:locked" (by decide) (by decide)⟩

/-! ## C7 — lockout guard fails open -/

/-- C7: with the backing cache unavailable, both the read-only check and
the failure recorder report not-locked with the full email attempt budget,
for any email, with or without an origin ip — and the recorder leaves the
state untouched.  No login is blocked by throttling during an outage. -/
theorem c7_fail_open (r : RedisState) (now : Nat) (email ipAddr : String) :
    checkLockout email (some ipAddr) false r now
      = { locked := false, attemptsRemaining := LOCKOUT_CONFIG_email.maxAttempts } ∧
    checkLockout email none false r now
      = { locked := false, attemptsRemaining := LOCKOUT_CONFIG_email.maxAttempts } ∧
    recordFailedAttempt email (some ipAddr) false r now
      = (r, { locked := false,
              attemptsRemaining := LOCKOUT_CONFIG_email.maxAttempts }) ∧
    recordFailedAttempt email none false r now
      = (r, { locked := false,
              attemptsRemaining := LOCKOUT_CONFIG_email.maxAttempts }) :=
  ⟨rfl, rfl, rfl, rfl⟩

/-! ## C8 — token kind confusion -/

/-- C8: a verifier never returns the claims of a token whose embedded kind
discriminator differs from the expected kind — `verifyAccessToken` only
ever returns `access` payloads, `verifyRefreshToken` only `refresh`
payloads carrying a jti — and malformed, expired and wrong-kind tokens
fail with the pairwise-distinct codes `MALFORMED_TOKEN`, `JWT_EXPIRED`
and `INVALID_TOKEN_TYPE`. -/
theorem c8_kind_discriminator (env : VerifyEnv) (t : RawToken) :
    (∀ p, verifyAccessToken env t = Except.ok p → p.typ = TokenKind.access) ∧
    (∀ p, verifyRefreshToken env t = Except.ok p →
      p.typ = TokenKind.refresh ∧ p.jti.getD "" ≠ "") ∧
    verifyAccessToken env RawToken.malformed
      = Except.error ⟨"Invalid token", "MALFORMED_TOKEN"⟩ ∧
    (∀ p kid, p.exp + env.clockTolerance ≤ env.now →
      verifyAccessToken env (RawToken.signed p kid)
        = Except.error ⟨"Token expired", "JWT_EXPIRED"⟩) ∧
    (∀ p kid, verifyToken env (RawToken.signed p kid) = Except.ok p →
      p.typ ≠ TokenKind.access →
      verifyAccessToken env (RawToken.signed p kid)
        = Except.error ⟨"Invalid token type", "INVALID_TOKEN_TYPE"⟩) ∧
    ("MALFORMED_TOKEN" ≠ "JWT_EXPIRED" ∧
     "MALFORMED_TOKEN" ≠ "INVALID_TOKEN_TYPE" ∧
     "JWT_EXPIRED" ≠ "INVALID_TOKEN_TYPE") := by
  refine ⟨?_, ?_, rfl, ?_, ?_, by decide, by decide, by decide⟩
  · intro p hp
    unfold verifyAccessToken at hp
    cases hv : verifyToken env t with
    | error e => rw [hv] at hp; dsimp only at hp; exact Except.noConfusion hp
    | ok q =>
      rw [hv] at hp
      dsimp only at hp
      by_cases hq : q.typ = TokenKind.access
      · rw [if_neg (not_not_intro hq)] at hp
        cases hp
        exact hq
      · rw [if_pos hq] at hp
        exact Except.noConfusion hp
  · intro p hp
    unfold verifyRefreshToken at hp
    cases hv : verifyToken env t with
    | error e => rw [hv] at hp; dsimp only at hp; exact Except.noConfusion hp
    | ok q =>
      rw [hv] at hp
      dsimp only at hp
      by_cases hq : q.typ = TokenKind.refresh
      · rw [if_neg (not_not_intro hq)] at hp
        by_cases hj : q.jti.getD "" = ""
        · rw [if_pos hj] at hp
          exact Except.noConfusion hp
        · rw [if_neg hj] at hp
          cases hp
          exact ⟨hq, hj⟩
      · rw [if_pos hq] at hp
        exact Except.noConfusion hp
  · intro p kid h
    simp only [verifyAccessToken, verifyToken]
    rw [if_pos h]
  · intro p kid hok hne
    unfold verifyAccessToken
    rw [hok]
    dsimp only
    rw [if_pos hne]

/-- C8 witnessed: a well-signed refresh token verifies as a refresh token
but is rejected by the access verifier with `INVALID_TOKEN_TYPE`; the
expired and malformed variants fail with `JWT_EXPIRED` and
`MALFORMED_TOKEN`. -/
theorem c8_kind_discriminator_witness :
    verifyToken c8env (RawToken.signed c8refreshPayload (some "k1"))
      = Except.ok c8refreshPayload ∧
    verifyAccessToken c8env (RawToken.signed c8refreshPayload (some "k1"))
      = Except.error ⟨"Invalid token type", "INVALID_TOKEN_TYPE"⟩ ∧
    verifyAccessToken c8env (RawToken.signed c8expiredPayload (some "k1"))
      = Except.error ⟨"Token expired", "JWT_EXPIRED"⟩ ∧
    verifyAccessToken c8env RawToken.malformed
      = Except.error ⟨"Invalid token", "MALFORMED_TOKEN"⟩ := by
  have h := c8_kind_discriminator c8env (RawToken.signed c8refreshPayload (some "k1"))
  refine ⟨rfl, ?_, ?_, h.2.2.1⟩
  · exact h.2.2.2.2.1 c8refreshPayload (some "k1") rfl (by decide)
  · exact h.2.2.2.1 c8expiredPayload (some "k1") (by decide)

/-! ## C9 — table-name allow-list -/

/-- C9: every generic query helper validates its table name against the
fixed allow-list before building any SQL: for a name outside the list each
helper fails with the validation error and builds no statement, and a
helper only ever returns a built statement for an allow-listed name. -/
theorem c9_table_allowlist (table : String)
    (rows : List (List (String × String)))
    (upVals : List (String × String)) (conflictColumns : List String)
    (updateColumns : Option (List String))
    (findConds delConds updConds : List (String × String))
    (setVals : List (String × String)) :
    (table ∉ ALLOWED_TABLES →
      DB.insert table rows = Except.error ("Invalid table name: " ++ table) ∧
      DB.upsert table upVals conflictColumns updateColumns
        = Except.error ("Invalid table name: " ++ table) ∧
      DB.find table findConds = Except.error ("Invalid table name: " ++ table) ∧
      DB.delete table delConds = Except.error ("Invalid table name: " ++ table) ∧
      DB.update table setVals updConds
        = Except.error ("Invalid table name: " ++ table)) ∧
    (∀ q, DB.insert table rows = Except.ok q → table ∈ ALLOWED_TABLES) ∧
    (∀ q, DB.upsert table upVals conflictColumns updateColumns = Except.ok q →
      table ∈ ALLOWED_TABLES) ∧
    (∀ q, DB.find table findConds = Except.ok q → table ∈ ALLOWED_TABLES) ∧
    (∀ q, DB.delete table delConds = Except.ok q → table ∈ ALLOWED_TABLES) ∧
    (∀ q, DB.update table setVals updConds = Except.ok q →
      table ∈ ALLOWED_TABLES) := by
  have hval : table ∉ ALLOWED_TABLES →
      validateTableName table = Except.error ("Invalid table name: " ++ table) := by
    intro hmem
    unfold validateTableName isValidTableName
    rw [if_neg]
    intro hc
    exact hmem (by simpa using hc)
  have hins : table ∉ ALLOWED_TABLES →
      DB.insert table rows = Except.error ("Invalid table name: " ++ table) := by
    intro hmem; unfold DB.insert; rw [hval hmem]
  have hups : table ∉ ALLOWED_TABLES →
      DB.upsert table upVals conflictColumns updateColumns
        = Except.error ("Invalid table name: " ++ table) := by
    intro hmem; unfold DB.upsert; rw [hval hmem]
  have hfind : table ∉ ALLOWED_TABLES →
      DB.find table findConds = Except.error ("Invalid table name: " ++ table) := by
    intro hmem; unfold DB.find; rw [hval hmem]
  have hdel : table ∉ ALLOWED_TABLES →
      DB.delete table delConds = Except.error ("Invalid table name: " ++ table) := by
    intro hmem; unfold DB.delete; rw [hval hmem]
  have hupd : table ∉ ALLOWED_TABLES →
      DB.update table setVals updConds
        = Except.error ("Invalid table name: " ++ table) := by
    intro hmem; unfold DB.update; rw [hval hmem]
  refine ⟨fun hmem => ⟨hins hmem, hups hmem, hfind hmem, hdel hmem, hupd hmem⟩,
    ?_, ?_, ?_, ?_, ?_⟩
  · intro q hq
    by_contra hmem
    rw [hins hmem] at hq
    exact Except.noConfusion hq
  · intro q hq
    by_contra hmem
    rw [hups hmem] at hq
    exact Except.noConfusion hq
  · intro q hq
    by_contra hmem
    rw [hfind hmem] at hq
    exact Except.noConfusion hq
  · intro q hq
    by_contra hmem
    rw [hdel hmem] at hq
    exact Except.noConfusion hq
  · intro q hq
    by_contra hmem
    rw [hupd hmem] at hq
    exact Except.noConfusion hq

/-- C9 witnessed: a non-allow-listed name is rejected by the helpers with
the validation error, and a successful build implies membership. -/
theorem c9_table_allowlist_witness :
    DB.insert "evil" [c9row] = Except.error ("Invalid table name: " ++ "evil") ∧
    DB.find "evil" c9row = Except.error ("Invalid table name: " ++ "evil") ∧
    "users" ∈ ALLOWED_TABLES := by
  have hbad := (c9_table_allowlist "evil" [c9row] c9row ["email"] none
    c9row c9row c9row c9row).1 (by decide)
  have hok := (c9_table_allowlist "users" [c9row] c9row ["email"] none
    c9row c9row c9row c9row).2.2.2.1
    { text := "SELECT * FROM users WHERE email=$1 AND name=$2;",
      params := ["a@b.c", "A"] } rfl
  exact ⟨hbad.1, hbad.2.2.1, hok⟩

end BaseExpress
